import Mathlib

/-!
# go-jaeger-test: tracing demo (`main.go`)

A shallow embedding of `main.go`.  The program is a sequence of calls into the
tracing client library, with `defer`, `panic` and `log.Fatal` deciding which
calls happen on which exit path.  The embedding therefore has three layers:

* the data the library hands around (`SpanContext`, `Span`, `Tracer`, HTTP
  headers) and an event log of the calls the program makes;
* Go function frames: a body is a state transformer that may register deferred
  calls, panic, or terminate the process; `func` runs the deferred calls in
  last-in-first-out order when the body returns or panics;
* the functions of `main.go`, written statement by statement over those.

The tracing library and the HTTP stack are not part of the repository.  Span
creation follows the specification of the span-context model; the carrier
codec, the UDP transport and the header canonicalisation are parameters
(`Lib`), with one concrete instance, `specLib`, built from the specification.
-/

namespace JaegerTest

/-! ## Data model -/

/-- Identifier set of a span: trace id, span id, parent span id (`none` for a
root), sampling flag and baggage. -/
structure SpanContext where
  traceId : Nat
  spanId : Nat
  parentId : Option Nat
  sampled : Bool
  baggage : List (String × String)
deriving DecidableEq, Repr

/-- A span as the program sees it: its operation name and its context. -/
structure Span where
  name : String
  ctx : SpanContext
deriving DecidableEq, Repr

/-- Value returned by `jaeger.NewUDPTransport(hostPort, maxPacketSize)`. -/
inductive Sender where
  | udp (hostPort : String) (maxPacketSize : Nat)
deriving DecidableEq, Repr

/-- Value returned by `jaeger.NewConstSampler(decision)`. -/
inductive Sampler where
  | const (decision : Bool)
deriving DecidableEq, Repr

/-- Value returned by `jaeger.NewRemoteReporter(sender)`; `noop` is the reporter
of the library's default tracer. -/
inductive Reporter where
  | remote (sender : Sender)
  | noop
deriving DecidableEq, Repr

/-- A tracer is determined by what it was built from. -/
structure Tracer where
  service : String
  sampler : Sampler
  reporter : Reporter
deriving DecidableEq, Repr

/-- The `io.Closer` that `jaeger.NewTracer` returns along with the tracer. -/
structure Closer where
  tracer : Tracer
deriving DecidableEq, Repr

/-- Sampling decision a tracer takes for a new root span. -/
def Tracer.sampled (t : Tracer) : Bool :=
  match t.sampler with
  | .const decision => decision

/-- `http.Header` and `opentracing.HTTPHeadersCarrier` are both
`map[string][]string`.  The map is kept as an association list with distinct
keys; when it is ranged over, the list order stands for the order Go picks. -/
abbrev Header := List (String × List String)

/-- Map read `h[k]`: the nil slice when the key is absent. -/
def Header.values : Header → String → List String
  | [], _ => []
  | (k', vs) :: t, k => if k' = k then vs else Header.values t k

/-- Map write `h[k] = vs`. -/
def Header.assign : Header → String → List String → Header
  | [], k, vs => [(k, vs)]
  | (k', vs') :: t, k, vs => if k' = k then (k, vs) :: t else (k', vs') :: Header.assign t k vs

/-- `http.Header.Add(key, value)`: the key is canonicalised, the value is
appended to the values already stored under it. -/
def Header.Add (canon : String → String) (h : Header) (key value : String) : Header :=
  h.assign (canon key) (h.values (canon key) ++ [value])

/-- `http.Header.Set(key, value)`, which is also `HTTPHeadersCarrier.Set`. -/
def Header.Set (canon : String → String) (h : Header) (key value : String) : Header :=
  h.assign (canon key) [value]

/-- An outgoing or incoming `*http.Request`. -/
structure Request where
  method : String
  url : String
  header : Header
deriving DecidableEq, Repr

/-- An `*http.Response`, reduced to its body. -/
structure Response where
  body : String
deriving DecidableEq, Repr

/-- `context.Context`, reduced to the span it carries (`context.Background()`
carries none). -/
abbrev Context := Option Span

/-- Errors of `Tracer.Extract`. -/
inductive ExtractError where
  | missing
  | malformed
deriving DecidableEq, Repr

/-- Text of an extract error, as `log.Fatal` prints it. -/
def ExtractError.message : ExtractError → String
  | .missing => "opentracing: SpanContext not found in Extract carrier"
  | .malformed => "opentracing: SpanContext data corrupted in Extract carrier"

/-- Calls the program makes that are visible from outside, in the order made. -/
inductive Event where
  | setGlobalTracer (t : Tracer)
  | spanStart (name : String) (ctx : SpanContext)
  | setTag (spanId : Nat) (key value : String)
  | setBaggage (spanId : Nat) (key value : String)
  | spanFinish (name : String) (spanId : Nat)
  | sleep (milliseconds : Nat)
  | closerClose (service : String)
  | bodyClose
  | println (line : String)
  | write (data : String)
  | logFatal (msg : String)
deriving DecidableEq, Repr

/-- Process state: the event log (oldest first), the id supply of the tracing
library, and the registered global tracer (`none`: the library default). -/
structure World where
  events : List Event
  nextId : Nat
  globalTracer : Option Tracer
deriving DecidableEq, Repr

/-- Append one event to the log. -/
def World.emit (w : World) (e : Event) : World :=
  { w with events := w.events ++ [e] }

/-! ## Go function frames -/

/-- A deferred call.  The deferred calls of `main.go` are library calls that
return normally. -/
abbrev Deferred := World → World

/-- How a function call ends. -/
inductive Result (α : Type) where
  | returned (a : α) (w : World)
  | panicked (v : String) (w : World)
  | exited (code : Nat) (w : World)
deriving DecidableEq, Repr

/-- State of a function body after a statement: still running (with the
deferred calls registered so far, most recent first), panicking, or the
process has been terminated by `os.Exit`. -/
inductive Step (α : Type) where
  | next (a : α) (w : World) (ds : List Deferred)
  | panic (v : String) (w : World) (ds : List Deferred)
  | exit (code : Nat) (w : World)

/-- A function body. -/
def Body (α : Type) : Type := World → List Deferred → Step α

/-- Sequencing of statements: a panic or an exit skips the rest of the body. -/
def Body.bind {α β : Type} (m : Body α) (f : α → Body β) : Body β :=
  fun w ds =>
    match m w ds with
    | .next a w' ds' => f a w' ds'
    | .panic v w' ds' => .panic v w' ds'
    | .exit c w' => .exit c w'

instance : Monad Body where
  pure a := fun w ds => .next a w ds
  bind := Body.bind

/-- The `defer` statement. -/
def defer (d : Deferred) : Body Unit :=
  fun w ds => .next () w (d :: ds)

/-- The `panic` statement (also a run-time panic). -/
def goPanic {α : Type} (v : String) : Body α :=
  fun w ds => .panic v w ds

/-- `os.Exit(code)`: the process ends, deferred calls are not run. -/
def osExit {α : Type} (code : Nat) : Body α :=
  fun w _ => .exit code w

/-- A statement that only changes the world. -/
def act (f : World → World) : Body Unit :=
  fun w ds => .next () (f w) ds

/-- A statement that reads and changes the world. -/
def actGet {α : Type} (f : World → α × World) : Body α :=
  fun w ds => .next (f w).1 (f w).2 ds

/-- Run deferred calls, most recently registered first. -/
def runDefers : List Deferred → World → World
  | [], w => w
  | d :: ds, w => runDefers ds (d w)

/-- A Go function: run the body with no deferred calls registered; when it
returns or panics, run the deferred calls; a panic then continues in the
caller (nothing in `main.go` recovers). -/
def func {α : Type} (body : Body α) (w : World) : Result α :=
  match body w [] with
  | .next a w' ds => .returned a (runDefers ds w')
  | .panic v w' ds => .panicked v (runDefers ds w')
  | .exit c w' => .exited c w'

/-- A call statement. -/
def call {α : Type} (f : World → Result α) : Body α :=
  fun w ds =>
    match f w with
    | .returned a w' => .next a w' ds
    | .panicked v w' => .panic v w' ds
    | .exited c w' => .exit c w'

/-- The world a call ends in. -/
def Result.world {α : Type} : Result α → World
  | .returned _ w => w
  | .panicked _ w => w
  | .exited _ w => w

/-! ## The libraries -/

/-- What `main.go` takes from outside the repository and the specification
leaves open: whether the UDP transport can be created, the carrier codec of the
tracer, and the canonical form of an HTTP header name. -/
structure Lib where
  NewUDPTransport : String → Nat → Except String Sender
  inject : SpanContext → Header → Except String Header
  extract : Header → Except ExtractError SpanContext
  canon : String → String

/-- `jaeger.NewConstSampler`. -/
def NewConstSampler (decision : Bool) : Sampler := .const decision

/-- `jaeger.NewRemoteReporter`. -/
def NewRemoteReporter (sender : Sender) : Reporter := .remote sender

/-- `jaeger.NewTracer(service, sampler, reporter)`. -/
def jaegerNewTracer (service : String) (sampler : Sampler) (reporter : Reporter) :
    Tracer × Closer :=
  ({ service := service, sampler := sampler, reporter := reporter },
   { tracer := { service := service, sampler := sampler, reporter := reporter } })

/-- The default global tracer of the library. -/
def noopTracer : Tracer :=
  { service := "", sampler := .const false, reporter := .noop }

/-- Modelled from the spec: `NewRoot(sampled)` of the tracing library, which is
not part of the repository: a fresh trace id and span id, no parent, the given
sampling flag, empty baggage.  Fresh ids come from the id supply. -/
def NewRoot (sampled : Bool) (w : World) : SpanContext × World :=
  ({ traceId := w.nextId, spanId := w.nextId + 1, parentId := none,
     sampled := sampled, baggage := [] },
   { w with nextId := w.nextId + 2 })

/-- Modelled from the spec: `NewChild(parent)` of the tracing library, which is
not part of the repository: trace id, sampling flag and baggage of the parent,
a fresh span id, and the parent's span id as parent span id. -/
def NewChild (parent : SpanContext) (w : World) : SpanContext × World :=
  ({ traceId := parent.traceId, spanId := w.nextId, parentId := some parent.spanId,
     sampled := parent.sampled, baggage := parent.baggage },
   { w with nextId := w.nextId + 1 })

/-- Modelled from the spec: `SetBaggage(ctx, key, value)` of the tracing
library, which is not part of the repository: the last write for a key wins. -/
def SetBaggage (ctx : SpanContext) (key value : String) : SpanContext :=
  { ctx with baggage := (ctx.baggage.filter fun kv => kv.1 ≠ key) ++ [(key, value)] }

/-- `Tracer.StartSpan(name)` (no parent: `StartRootSpan`) and
`Tracer.StartSpan(name, ChildOf(parent))` (`StartChildSpan`). -/
def Tracer.StartSpan (t : Tracer) (name : String) (parent : Option SpanContext) : Body Span := do
  let ctx ← actGet (match parent with
    | none => NewRoot t.sampled
    | some p => NewChild p)
  act (World.emit · (.spanStart name ctx))
  return { name := name, ctx := ctx }

/-- `opentracing.GlobalTracer()`. -/
def GlobalTracer : Body Tracer :=
  fun w ds => .next (w.globalTracer.getD noopTracer) w ds

/-- `opentracing.SetGlobalTracer(tracer)`. -/
def SetGlobalTracer (t : Tracer) : Body Unit :=
  act fun w => { w.emit (.setGlobalTracer t) with globalTracer := some t }

/-- `context.Background()`. -/
def Background : Context := none

/-- `opentracing.ContextWithSpan(ctx, span)`. -/
def ContextWithSpan (_ctx : Context) (span : Span) : Context := some span

/-- `opentracing.StartSpanFromContext(ctx, name)`: a span of the global tracer,
child of the span in `ctx` when there is one; returns the span and a context
carrying it. -/
def StartSpanFromContext (ctx : Context) (name : String) : Body (Span × Context) := do
  let tracer ← GlobalTracer
  let span ← tracer.StartSpan name (ctx.map Span.ctx)
  return (span, ContextWithSpan ctx span)

/-- `opentracing.StartSpan(name, ext.RPCServerOption(client))`: a span of the
global tracer, child of `client`, tagged as the server side of an RPC. -/
def StartSpanRPCServer (name : String) (client : SpanContext) : Body Span := do
  let tracer ← GlobalTracer
  let span ← tracer.StartSpan name (some client)
  act (World.emit · (.setTag span.ctx.spanId "span.kind" "server"))
  return span

/-- `span.SetTag(key, value)`. -/
def Span.SetTag (s : Span) (key value : String) : World → World :=
  fun w => w.emit (.setTag s.ctx.spanId key value)

/-- `span.SetBaggageItem(key, value)`; the span is returned with the item in
its baggage. -/
def Span.SetBaggageItem (s : Span) (key value : String) : Body Span := do
  act (World.emit · (.setBaggage s.ctx.spanId key value))
  return { s with ctx := SetBaggage s.ctx key value }

/-- `span.Finish()`. -/
def Span.Finish (s : Span) : World → World :=
  fun w => w.emit (.spanFinish s.name s.ctx.spanId)

/-- `closer.Close()`. -/
def Closer.Close (c : Closer) : World → World :=
  fun w => w.emit (.closerClose c.tracer.service)

/-- `resp.Body.Close()`. -/
def Response.bodyClose (_r : Response) : World → World :=
  fun w => w.emit .bodyClose

/-- `time.Sleep`, in milliseconds. -/
def Sleep (milliseconds : Nat) : Body Unit :=
  act (World.emit · (.sleep milliseconds))

/-- `fmt.Println("body:", s)`: the operands separated by a space. -/
def Println2 (a b : String) : Body Unit :=
  act (World.emit · (.println (a ++ " " ++ b)))

/-- `log.Fatal(err)`: print, then `os.Exit(1)`. -/
def logFatal {α : Type} (msg : String) : Body α := do
  act (World.emit · (.logFatal msg))
  osExit 1

/-- `writer.Write(data)`; the writer is the bytes written so far. -/
def Write (writer : String) (data : String) : Body String := do
  act (World.emit · (.write data))
  return writer ++ data

/-- `http.NewRequest(method, url, nil)`: a request with an empty header map. -/
def NewRequest (method url : String) : Request :=
  { method := method, url := url, header := [] }

/-- What `client.Do(req)` can end in: it returns a response (nil on failure),
or the process is terminated while the caller is blocked in it. -/
inductive DoResult where
  | response (resp : Option Response) (w : World)
  | processExit (code : Nat) (w : World)

/-- The statement `resp, _ := client.Do(req)`. -/
def httpDo (Do : Request → World → DoResult) (req : Request) : Body (Option Response) :=
  fun w ds =>
    match Do req w with
    | .response resp w' => .next resp w' ds
    | .processExit c w' => .exit c w'

/-! ## `main.go` -/

/-- The constant `UDPTransport`. -/
def UDPTransport : String := "127.0.0.1:6831"

/-- `NewJaegerTracer(service)`. -/
def NewJaegerTracer (lib : Lib) (service : String) : World → Result (Tracer × Closer) :=
  func do
    match lib.NewUDPTransport UDPTransport 0 with
    | .error err => goPanic err
    | .ok sender =>
      let (tracer, closer) :=
        jaegerNewTracer service (NewConstSampler true) (NewRemoteReporter sender)
      return (tracer, closer)

/-- `step1(ctx)`. -/
def step1 (ctx : Context) : World → Result Unit :=
  func do
    let (span, _) ← StartSpanFromContext ctx "step-1"
    defer (fun w => span.Finish (span.SetTag "func" "step1" w))
    Sleep (1000 * 1)

/-- `step2(ctx)`. -/
def step2 (ctx : Context) : World → Result Unit :=
  func do
    let (span, _) ← StartSpanFromContext ctx "step-2"
    defer (fun w => span.Finish (span.SetTag "func" "step2" w))
    Sleep (1000 * 2)

/-- `step3(ctx)`. -/
def step3 (ctx : Context) : World → Result Unit :=
  func do
    let (span, _) ← StartSpanFromContext ctx "step-3"
    defer (fun w => span.Finish (span.SetTag "func" "step3" w))
    Sleep (1000 * 3)

/-- `simulateLocalCall()`. -/
def simulateLocalCall (lib : Lib) : World → Result Unit :=
  func do
    let (tracer, closer) ← call (NewJaegerTracer lib "myapp")
    defer closer.Close
    SetGlobalTracer tracer
    let rootSpan ← tracer.StartSpan "root-span" none
    defer rootSpan.Finish
    let ctx := ContextWithSpan Background rootSpan
    call (step1 ctx)
    call (step2 ctx)
    call (step3 ctx)

/-- `handle(ctx)`. -/
def handle (ctx : Context) : World → Result Unit :=
  func do
    let (span, _) ← StartSpanFromContext ctx "server-handle"
    defer span.Finish
    act (span.SetTag "func" "handle")
    let span ← span.SetBaggageItem "params" "a very long string"
    let _ ← span.SetBaggageItem "err" "a error with detail information"
    Sleep (1000 * 5)

/-- The function `server()` registers for `/hi`. -/
def hiHandler (lib : Lib) (writer : String) (request : Request) : World → Result String :=
  func do
    let _tracer ← GlobalTracer
    match lib.extract request.header with
    | .error err => logFatal err.message
    | .ok wireContext =>
      let serverSpan ← StartSpanRPCServer "server-two-http-root" wireContext
      let ctx := ContextWithSpan Background serverSpan
      defer serverSpan.Finish
      call (handle ctx)
      let writer ← Write writer "hello world"
      return writer

/-- The loop `for key, value := range carrier { req.Header.Add(key, value[0]) }`
of `client()`; `value[0]` panics on an empty slice. -/
def copyCarrier (canon : String → String) : Header → Header → Except String Header
  | [], h => .ok h
  | (_, []) :: _, _ => .error "runtime error: index out of range [0] with length 0"
  | (key, v0 :: _) :: rest, h => copyCarrier canon rest (h.Add canon key v0)

/-- The copy loop as a statement on the request. -/
def rangeAdd (canon : String → String) (carrier : Header) (req : Request) : Body Request :=
  match copyCarrier canon carrier req.header with
  | .error v => goPanic v
  | .ok h => pure { req with header := h }

/-- The run-time panic of reading a field through a nil pointer. -/
def nilDereference : String :=
  "runtime error: invalid memory address or nil pointer dereference"

/-- `client()`; `Do` is what `client.Do` does with the request. -/
def client (lib : Lib) (Do : Request → World → DoResult) : World → Result Unit :=
  func do
    let req := NewRequest "GET" "http://localhost:8999/hi"
    let (tracer, closer) ← call (NewJaegerTracer lib "myapp")
    defer closer.Close
    SetGlobalTracer tracer
    let crossSpan ← tracer.StartSpan "cross-span" none
    defer crossSpan.Finish
    let ctx := ContextWithSpan Background crossSpan
    let (clientSpan, _clientCtx) ← StartSpanFromContext ctx "http-one-req"
    match lib.inject clientSpan.ctx [] with
    | .error err => goPanic err
    | .ok carrier =>
      defer clientSpan.Finish
      let req ← rangeAdd lib.canon carrier req
      let resp ← httpDo Do req
      match resp with
      | none => goPanic nilDereference
      | some r =>
        defer r.bodyClose
        let body := r.body -- ioutil.ReadAll(resp.Body)
        Println2 "body:" body

/-- The server side of the remote scenario as seen from `client.Do`: the
request reaches the `/hi` handler, which runs in the same process while the
client is blocked, and what it wrote is the response body.  A panic in a
handler is recovered by `net/http`, and the client gets no response. -/
def serveHi (lib : Lib) (req : Request) (w : World) : DoResult :=
  match hiHandler lib "" req w with
  | .returned body w' => .response (some { body := body }) w'
  | .panicked _ w' => .response none w'
  | .exited c w' => .processExit c w'

/-- `simulateRemoteCall()`: the server is started, and after half a second the
client runs against it.  The comment above it in `main.go` names
`simulateLocalCall`, but describes this function: the call that crosses
applications, with the trace id carried in the HTTP headers. -/
def simulateRemoteCall (lib : Lib) : World → Result Unit :=
  func do
    Sleep 500
    call (client lib (serveHi lib))

/-- `main()`: the local scenario, then the remote one. -/
def main (lib : Lib) : World → Result Unit :=
  func do
    call (simulateLocalCall lib)
    call (simulateRemoteCall lib)

/-! ## A concrete library instance -/

/-- Bytes allowed in a header name (the token characters of RFC 7230). -/
def validHeaderFieldByte (c : Char) : Bool :=
  c.isAlphanum || [33, 35, 36, 37, 38, 39, 42, 43, 45, 46, 94, 95, 96, 124, 126].contains c.toNat

/-- Letter case of the canonical form: upper case at the start and after a
hyphen, lower case elsewhere. -/
def canonicalCase : Bool → List Char → List Char
  | _, [] => []
  | upper, c :: cs =>
    (if upper then (if c.isLower then Char.ofNat (c.toNat - 32) else c)
     else (if c.isUpper then Char.ofNat (c.toNat + 32) else c))
      :: canonicalCase (c == '-') cs

/-- `textproto.CanonicalMIMEHeaderKey`, which `net/http` applies to header
names: a name with a byte outside the token characters is returned unchanged. -/
def CanonicalMIMEHeaderKey (s : String) : String :=
  if s.data.all validHeaderFieldByte then String.mk (canonicalCase true s.data) else s

/-- Decimal text of an id. -/
def encodeId (n : Nat) : String := String.mk (Nat.toDigits 10 n)

/-- Value of a decimal digit. -/
def decodeDigit (c : Char) : Option Nat :=
  if 48 ≤ c.toNat ∧ c.toNat ≤ 57 then some (c.toNat - 48) else none

/-- Parse the decimal text of an id. -/
def decodeId (s : String) : Option Nat :=
  match s.data with
  | [] => none
  | c :: cs => (c :: cs).foldlM (fun acc d => (decodeDigit d).map (acc * 10 + ·)) 0

/-- Text of the sampling flag. -/
def encodeFlag (b : Bool) : String := if b then "true" else "false"

/-- Parse the sampling flag. -/
def decodeFlag (s : String) : Option Bool :=
  if s = "true" then some true else if s = "false" then some false else none

/-- Remove the leading characters `p` from `s`, if `s` starts with them. -/
def stripLeading : List Char → List Char → Option (List Char)
  | [], s => some s
  | _ :: _, [] => none
  | a :: p, b :: s => if a = b then stripLeading p s else none

/-- Lower-case form of a header name; HTTP header names are case-insensitive. -/
def lowerName (s : String) : String :=
  String.mk (s.data.map fun c => if c.isUpper then Char.ofNat (c.toNat + 32) else c)

/-- First value stored under a header name, names compared without regard to
letter case. -/
def firstValue : Header → String → Option String
  | [], _ => none
  | (k, vs) :: t, name => if lowerName k = name then vs.head? else firstValue t name

/-- Modelled from the spec: `Inject(ctx, carrier)` of the carrier codec, which
is not part of the repository: writes trace id, span id, sampling flag and one
entry per baggage item under the reserved keys `trace-id`, `span-id`, `sampled`
and `baggage-<key>`, through the carrier's `Set`, and touches no other key. -/
def specInject (canon : String → String) (ctx : SpanContext) (carrier : Header) : Header :=
  let c1 := carrier.Set canon "trace-id" (encodeId ctx.traceId)
  let c2 := c1.Set canon "span-id" (encodeId ctx.spanId)
  let c3 := c2.Set canon "sampled" (encodeFlag ctx.sampled)
  ctx.baggage.foldl (fun c kv => c.Set canon ("baggage-" ++ kv.1) kv.2) c3

/-- Baggage entries of a carrier: the keys under the baggage namespace, with
the namespace stripped. -/
def specBaggage (h : Header) : List (String × String) :=
  h.filterMap fun e =>
    match stripLeading "baggage-".data (lowerName e.1).data, e.2 with
    | some k, v :: _ => some (String.mk k, v)
    | _, _ => none

/-- Modelled from the spec: `Extract(carrier)` of the carrier codec, which is
not part of the repository: `Missing` when the trace-id or span-id key is
absent, `Malformed` when a key is present but does not parse; otherwise the
context read back, whose span id is the parent of the children created from
it.  The parent id of the sender is not among the reserved keys. -/
def specExtract (h : Header) : Except ExtractError SpanContext :=
  match firstValue h "trace-id", firstValue h "span-id" with
  | some t, some s =>
    match decodeId t, decodeId s, (firstValue h "sampled").map decodeFlag with
    | some tid, some sid, none =>
      .ok { traceId := tid, spanId := sid, parentId := none, sampled := false,
            baggage := specBaggage h }
    | some tid, some sid, some (some b) =>
      .ok { traceId := tid, spanId := sid, parentId := none, sampled := b,
            baggage := specBaggage h }
    | _, _, _ => .error .malformed
  | _, _ => .error .missing

/-- A library in which the UDP transport can be created and the codec is the
one of the specification over HTTP headers. -/
def specLib : Lib :=
  { NewUDPTransport := fun hostPort maxPacketSize => .ok (.udp hostPort maxPacketSize),
    inject := fun ctx carrier => .ok (specInject CanonicalMIMEHeaderKey ctx carrier),
    extract := specExtract,
    canon := CanonicalMIMEHeaderKey }

/-- The process before `main` has run: no events, no global tracer. -/
def World.initial : World :=
  { events := [], nextId := 1, globalTracer := none }

/-! ## Reading the event log -/

/-- The spans started, in order: operation name and context. -/
def spanStarts : List Event → List (String × SpanContext)
  | [] => []
  | .spanStart name ctx :: es => (name, ctx) :: spanStarts es
  | _ :: es => spanStarts es

/-- The events that end something (a span, the tracer, a response body), in
order. -/
def closings : List Event → List Event
  | [] => []
  | .spanFinish name spanId :: es => .spanFinish name spanId :: closings es
  | .closerClose service :: es => .closerClose service :: closings es
  | .bodyClose :: es => .bodyClose :: closings es
  | _ :: es => closings es

/-- Number of times `Finish` was called on the span with the given id. -/
def finishCount (spanId : Nat) : List Event → Nat
  | [] => 0
  | .spanFinish _ i :: es => (if i = spanId then 1 else 0) + finishCount spanId es
  | _ :: es => finishCount spanId es

/-- Context of the root span that `simulateLocalCall` and `client` start first
in a process state `w`. -/
def firstRootCtx (w : World) : SpanContext :=
  { traceId := w.nextId, spanId := w.nextId + 1, parentId := none, sampled := true,
    baggage := [] }

/-- Context of the span `http-one-req` that `client` starts in a process state
`w`: the first child of its root span. -/
def clientCtx (w : World) : SpanContext :=
  { traceId := w.nextId, spanId := w.nextId + 2, parentId := some (w.nextId + 1),
    sampled := true, baggage := [] }

/-- The tracer `NewJaegerTracer(service)` builds over a transport. -/
def jaegerTracer (service : String) (sender : Sender) : Tracer :=
  { service := service, sampler := .const true, reporter := .remote sender }

/-- A library whose `Inject` reports an error, as the `Tracer` interface
allows; everything else as in `specLib`. -/
def injectErrorLib : Lib :=
  { specLib with
    inject := fun _ _ => .error "opentracing: Unknown or unsupported Inject/Extract format" }

/-- A `client.Do` that fails: nil response, no effect on the process. -/
def doFails : Request → World → DoResult :=
  fun _ w => .response none w

/-- A `client.Do` that gets the given response, with no effect on the process. -/
def doAnswers (resp : Response) : Request → World → DoResult :=
  fun _ w => .response (some resp) w

/-- The request `client` has built when it calls `client.Do`, given the header
map the copy loop produced. -/
def clientRequest (h : Header) : Request :=
  { method := "GET", url := "http://localhost:8999/hi", header := h }

/-- The process state in which `client`, started in `w`, calls `client.Do`:
the tracer is registered and the two client spans are started. -/
def clientWorldAtDo (sender : Sender) (w : World) : World :=
  { events := w.events ++
      [.setGlobalTracer (jaegerTracer "myapp" sender),
       .spanStart "cross-span" (firstRootCtx w),
       .spanStart "http-one-req" (clientCtx w)],
    nextId := w.nextId + 2 + 1,
    globalTracer := some (jaegerTracer "myapp" sender) }

/-- A context with the baggage of the specification's round-trip property. -/
def sampleCtx : SpanContext :=
  { traceId := 12, spanId := 305, parentId := some 4, sampled := true,
    baggage := [("a", "1"), ("b", "2")] }


/-- A context whose one baggage key is an upper-case letter. -/
def upperCaseCtx : SpanContext :=
  { traceId := 12, spanId := 305, parentId := some 4, sampled := true,
    baggage := [("A", "1")] }

/-- A context with two baggage keys that differ only in letter case. -/
def mixedCaseCtx : SpanContext :=
  { traceId := 12, spanId := 305, parentId := some 4, sampled := true,
    baggage := [("k", "1"), ("K", "2")] }

/-! ## Symbolic evaluation: unfolding rules and run lemmas -/

attribute [simp] defer goPanic osExit act actGet runDefers func call Result.world World.emit
  NewConstSampler NewRemoteReporter jaegerNewTracer NewRoot NewChild Tracer.StartSpan GlobalTracer
  SetGlobalTracer Background ContextWithSpan StartSpanFromContext StartSpanRPCServer Span.SetTag
  Span.SetBaggageItem Span.Finish Closer.Close Response.bodyClose Sleep Println2 logFatal Write
  NewRequest httpDo UDPTransport Tracer.sampled SetBaggage spanStarts closings finishCount

@[simp] theorem Body.bind_apply {α β : Type} (m : Body α) (f : α → Body β) (w : World)
    (ds : List Deferred) : (m >>= f) w ds = Body.bind m f w ds := rfl

@[simp] theorem Body.pure_apply {α : Type} (a : α) (w : World) (ds : List Deferred) :
    (pure a : Body α) w ds = .next a w ds := rfl

theorem NewJaegerTracer_ok (lib : Lib) (service : String) (w : World) (sender : Sender)
    (h : lib.NewUDPTransport "127.0.0.1:6831" 0 = .ok sender) :
    NewJaegerTracer lib service w =
      .returned (jaegerNewTracer service (.const true) (.remote sender)) w := by
  simp [NewJaegerTracer, Body.bind, h]

theorem NewJaegerTracer_error (lib : Lib) (service : String) (w : World) (err : String)
    (h : lib.NewUDPTransport "127.0.0.1:6831" 0 = .error err) :
    NewJaegerTracer lib service w = .panicked err w := by
  simp [NewJaegerTracer, Body.bind, h]

theorem simulateLocalCall_run (lib : Lib) (w : World) (sender : Sender)
    (hudp : lib.NewUDPTransport "127.0.0.1:6831" 0 = .ok sender) :
    simulateLocalCall lib w = .returned ()
      { events := w.events ++
          [.setGlobalTracer (jaegerTracer "myapp" sender),
           .spanStart "root-span" (firstRootCtx w),
           .spanStart "step-1" { firstRootCtx w with spanId := w.nextId + 2, parentId := some (w.nextId + 1) },
           .sleep 1000, .setTag (w.nextId + 2) "func" "step1", .spanFinish "step-1" (w.nextId + 2),
           .spanStart "step-2" { firstRootCtx w with spanId := w.nextId + 3, parentId := some (w.nextId + 1) },
           .sleep 2000, .setTag (w.nextId + 3) "func" "step2", .spanFinish "step-2" (w.nextId + 3),
           .spanStart "step-3" { firstRootCtx w with spanId := w.nextId + 4, parentId := some (w.nextId + 1) },
           .sleep 3000, .setTag (w.nextId + 4) "func" "step3", .spanFinish "step-3" (w.nextId + 4),
           .spanFinish "root-span" (w.nextId + 1),
           .closerClose "myapp"],
        nextId := w.nextId + 5,
        globalTracer := some (jaegerTracer "myapp" sender) } := by
  simp [simulateLocalCall, step1, step2, step3, Body.bind, NewJaegerTracer_ok lib "myapp" _ sender hudp,
    jaegerTracer, firstRootCtx]

theorem client_run (lib : Lib) (Do : Request → World → DoResult) (w : World) (sender : Sender)
    (car hdr : Header)
    (hudp : lib.NewUDPTransport "127.0.0.1:6831" 0 = .ok sender)
    (hinj : lib.inject (clientCtx w) [] = .ok car)
    (hcopy : copyCarrier lib.canon car [] = .ok hdr) :
    client lib Do w =
      match Do (clientRequest hdr) (clientWorldAtDo sender w) with
      | .response none w2 =>
        .panicked nilDereference { w2 with events := w2.events ++
          [.spanFinish "http-one-req" (w.nextId + 2), .spanFinish "cross-span" (w.nextId + 1),
           .closerClose "myapp"] }
      | .response (some r) w2 =>
        .returned () { w2 with events := w2.events ++
          [.println ("body: " ++ r.body), .bodyClose,
           .spanFinish "http-one-req" (w.nextId + 2), .spanFinish "cross-span" (w.nextId + 1),
           .closerClose "myapp"] }
      | .processExit c w2 => .exited c w2 := by
  have hinj' := hinj
  simp only [clientCtx] at hinj'
  cases hd : Do (clientRequest hdr) (clientWorldAtDo sender w) with
  | response resp w2 =>
    simp only [clientRequest, clientWorldAtDo, jaegerTracer, firstRootCtx, clientCtx] at hd
    cases resp <;>
    simp [client, Body.bind, NewJaegerTracer_ok lib "myapp" _ sender hudp, hinj', rangeAdd, hcopy,
      hd, String.append_assoc]
  | processExit c w2 =>
    simp only [clientRequest, clientWorldAtDo, jaegerTracer, firstRootCtx, clientCtx] at hd
    simp [client, Body.bind, NewJaegerTracer_ok lib "myapp" _ sender hudp, hinj', rangeAdd, hcopy,
      hd]

theorem hiHandler_ok (lib : Lib) (writer : String) (request : Request) (w : World)
    (wire : SpanContext) (h : lib.extract request.header = .ok wire) :
    hiHandler lib writer request w = .returned (writer ++ "hello world")
      { events := w.events ++
          [.spanStart "server-two-http-root" (NewChild wire w).1,
           .setTag w.nextId "span.kind" "server",
           .spanStart "server-handle" (NewChild (NewChild wire w).1 (NewChild wire w).2).1,
           .setTag (w.nextId + 1) "func" "handle",
           .setBaggage (w.nextId + 1) "params" "a very long string",
           .setBaggage (w.nextId + 1) "err" "a error with detail information",
           .sleep 5000,
           .spanFinish "server-handle" (w.nextId + 1),
           .write "hello world",
           .spanFinish "server-two-http-root" w.nextId],
        nextId := w.nextId + 1 + 1,
        globalTracer := w.globalTracer } := by
  simp [hiHandler, handle, Body.bind, h]

theorem hiHandler_error (lib : Lib) (writer : String) (request : Request) (w : World)
    (err : ExtractError) (h : lib.extract request.header = .error err) :
    hiHandler lib writer request w =
      .exited 1 { w with events := w.events ++ [.logFatal err.message] } := by
  simp [hiHandler, Body.bind, h]

theorem simulateRemoteCall_run (lib : Lib) (w : World) (sender : Sender) (car hdr : Header)
    (wire : SpanContext)
    (hudp : lib.NewUDPTransport "127.0.0.1:6831" 0 = .ok sender)
    (hinj : lib.inject (clientCtx w) [] = .ok car)
    (hcopy : copyCarrier lib.canon car [] = .ok hdr)
    (hext : lib.extract hdr = .ok wire) :
    simulateRemoteCall lib w = .returned ()
      { events := w.events ++
          [.sleep 500,
           .setGlobalTracer (jaegerTracer "myapp" sender),
           .spanStart "cross-span" (firstRootCtx w),
           .spanStart "http-one-req" (clientCtx w),
           .spanStart "server-two-http-root"
              { wire with spanId := w.nextId + 3, parentId := some wire.spanId },
           .setTag (w.nextId + 3) "span.kind" "server",
           .spanStart "server-handle"
              { wire with spanId := w.nextId + 4, parentId := some (w.nextId + 3) },
           .setTag (w.nextId + 4) "func" "handle",
           .setBaggage (w.nextId + 4) "params" "a very long string",
           .setBaggage (w.nextId + 4) "err" "a error with detail information",
           .sleep 5000,
           .spanFinish "server-handle" (w.nextId + 4),
           .write "hello world",
           .spanFinish "server-two-http-root" (w.nextId + 3),
           .println "body: hello world",
           .bodyClose,
           .spanFinish "http-one-req" (w.nextId + 2),
           .spanFinish "cross-span" (w.nextId + 1),
           .closerClose "myapp"],
        nextId := w.nextId + 5,
        globalTracer := some (jaegerTracer "myapp" sender) } := by
  have hrun := client_run lib (serveHi lib) (w.emit (.sleep 500)) sender car hdr hudp hinj hcopy
  have hserve : serveHi lib (clientRequest hdr) (clientWorldAtDo sender (w.emit (.sleep 500))) =
      .response (some { body := "hello world" })
        (hiHandler lib "" (clientRequest hdr) (clientWorldAtDo sender (w.emit (.sleep 500)))).world := by
    simp [serveHi, hiHandler_ok lib "" (clientRequest hdr) _ wire hext]
  rw [hserve, hiHandler_ok lib "" (clientRequest hdr) _ wire hext] at hrun
  simp [clientWorldAtDo, firstRootCtx, clientCtx, String.append_assoc] at hrun
  simp [simulateRemoteCall, Body.bind, hrun, firstRootCtx, clientCtx, Nat.add_assoc]

theorem Header.values_assign_same (h : Header) (k : String) (vs : List String) :
    (h.assign k vs).values k = vs := by
  induction h with
  | nil => simp [Header.assign, Header.values]
  | cons e t ih =>
    obtain ⟨k', vs'⟩ := e
    by_cases hk : k' = k
    · simp [Header.assign, Header.values, hk]
    · simp [Header.assign, Header.values, hk, ih]

theorem Header.values_assign_other (h : Header) (k k' : String) (vs : List String)
    (hne : k' ≠ k) : (h.assign k vs).values k' = h.values k' := by
  induction h with
  | nil => simp [Header.assign, Header.values, Ne.symm hne]
  | cons e t ih =>
    obtain ⟨k0, vs0⟩ := e
    by_cases hk : k0 = k
    · subst hk
      simp [Header.assign, Header.values, Ne.symm hne]
    · by_cases hk' : k0 = k'
      · subst hk'
        simp [Header.assign, Header.values, hk]
      · simp [Header.assign, Header.values, hk, hk', ih]

theorem Header.values_Add_same (canon : String → String) (h : Header) (key v : String) :
    (h.Add canon key v).values (canon key) = h.values (canon key) ++ [v] := by
  simp [Header.Add, Header.values_assign_same]

theorem Header.values_Add_other (canon : String → String) (h : Header) (key v k : String)
    (hne : k ≠ canon key) : (h.Add canon key v).values k = h.values k := by
  simp [Header.Add, Header.values_assign_other _ _ _ _ hne]

theorem Header.values_absent (h : Header) (k : String) (hk : k ∉ h.map Prod.fst) :
    h.values k = [] := by
  induction h with
  | nil => rfl
  | cons e t ih =>
    obtain ⟨k0, vs0⟩ := e
    simp only [List.map_cons, List.mem_cons, not_or] at hk
    simp [Header.values, Ne.symm hk.1, ih hk.2]

theorem Header.assign_absent (h : Header) (k : String) (vs : List String)
    (hk : k ∉ h.map Prod.fst) : h.assign k vs = h ++ [(k, vs)] := by
  induction h with
  | nil => rfl
  | cons e t ih =>
    obtain ⟨k0, vs0⟩ := e
    simp only [List.map_cons, List.mem_cons, not_or] at hk
    simp [Header.assign, Ne.symm hk.1, ih hk.2]

theorem copyCarrier_spec (canon : String → String) (carrier : Header) :
    ∀ h : Header, (∀ e ∈ carrier, e.2 ≠ []) → (carrier.map fun e => canon e.1).Nodup →
      ∃ h', copyCarrier canon carrier h = .ok h' ∧
        (∀ e ∈ carrier, ∀ hne : e.2 ≠ [],
          h'.values (canon e.1) = h.values (canon e.1) ++ [e.2.head hne]) ∧
        (∀ k, (∀ e ∈ carrier, canon e.1 ≠ k) → h'.values k = h.values k) := by
  induction carrier with
  | nil =>
    intro h _ _
    exact ⟨h, rfl, by simp, by simp⟩
  | cons e rest ih =>
    intro h hne hnd
    obtain ⟨key, value⟩ := e
    cases value with
    | nil => exact absurd rfl (hne (key, []) (List.mem_cons_self _ _))
    | cons v0 vs =>
      simp only [List.map_cons, List.nodup_cons, List.mem_map, not_exists, not_and] at hnd
      obtain ⟨h', hrun, hkeys, hframe⟩ :=
        ih (h.Add canon key v0) (fun e he => hne e (List.mem_cons_of_mem _ he)) hnd.2
      refine ⟨h', by simpa [copyCarrier] using hrun, ?_, ?_⟩
      · intro e he hne'
        rcases List.mem_cons.mp he with heq | hmem
        · subst heq
          rw [hframe (canon key) (fun e' he' => hnd.1 e' he'), Header.values_Add_same]
          rfl
        · rw [hkeys e hmem hne', Header.values_Add_other]
          exact hnd.1 e hmem
      · intro k hk
        rw [hframe k (fun e' he' => hk e' (List.mem_cons_of_mem _ he')), Header.values_Add_other]
        exact Ne.symm (hk (key, v0 :: vs) (List.mem_cons_self _ _))

/-! ## The codec of the specification over HTTP headers -/

theorem decodeDigit_digitChar (m : Nat) (h : m < 10) : decodeDigit (Nat.digitChar m) = some m := by
  interval_cases m <;> decide

theorem toDigitsCore_ne_nil (b : Nat) : ∀ (fuel n : Nat) (ds : List Char), ds ≠ [] →
    Nat.toDigitsCore b fuel n ds ≠ [] := by
  intro fuel
  induction fuel with
  | zero => intro n ds h; simpa [Nat.toDigitsCore] using h
  | succ f ih =>
    intro n ds h
    simp only [Nat.toDigitsCore]
    split
    · simp
    · exact ih _ _ (by simp)

theorem decode_toDigitsCore : ∀ (fuel n : Nat) (ds : List Char), n < fuel →
    (Nat.toDigitsCore 10 fuel n ds).foldlM (fun acc d => (decodeDigit d).map (acc * 10 + ·)) 0 =
      ds.foldlM (fun acc d => (decodeDigit d).map (acc * 10 + ·)) n := by
  intro fuel
  induction fuel with
  | zero => intro n ds h; omega
  | succ f ih =>
    intro n ds h
    simp only [Nat.toDigitsCore]
    split
    · rename_i h0
      have hn : n % 10 = n := Nat.mod_eq_of_lt (by omega)
      rw [hn]
      simp [List.foldlM, decodeDigit_digitChar n (by omega)]
    · rename_i h0
      rw [ih (n / 10) _ (by omega)]
      simp [List.foldlM, decodeDigit_digitChar (n % 10) (Nat.mod_lt _ (by decide))]
      congr 1
      omega

theorem decodeId_encodeId (n : Nat) : decodeId (encodeId n) = some n := by
  have hne : Nat.toDigits 10 n ≠ [] := by
    unfold Nat.toDigits
    simp only [Nat.toDigitsCore]
    split
    · simp
    · exact toDigitsCore_ne_nil _ _ _ _ (by simp)
  have hdec := decode_toDigitsCore (n + 1) n [] (Nat.lt_succ_self n)
  simp only [decodeId, encodeId]
  cases hd : Nat.toDigits 10 n with
  | nil => exact absurd hd hne
  | cons c cs =>
    simp only
    have : Nat.toDigitsCore 10 (n + 1) n [] = c :: cs := hd
    rw [this] at hdec
    simpa using hdec

theorem decodeFlag_encodeFlag (b : Bool) : decodeFlag (encodeFlag b) = some b := by
  cases b <;> decide

theorem isUpper_iff_toNat (c : Char) : c.isUpper = true ↔ 65 ≤ c.toNat ∧ c.toNat ≤ 90 := by
  simp [Char.isUpper, Char.toNat, UInt32.le_def, Fin.le_def]
  rfl

theorem isLower_iff_toNat (c : Char) : c.isLower = true ↔ 97 ≤ c.toNat ∧ c.toNat ≤ 122 := by
  simp [Char.isLower, Char.toNat, UInt32.le_def, Fin.le_def]
  rfl

theorem lowerChar_canonicalCase (upper : Bool) (c : Char) :
    (fun c : Char => if c.isUpper then Char.ofNat (c.toNat + 32) else c)
      (if upper then (if c.isLower then Char.ofNat (c.toNat - 32) else c)
       else (if c.isUpper then Char.ofNat (c.toNat + 32) else c)) =
    (fun c : Char => if c.isUpper then Char.ofNat (c.toNat + 32) else c) c := by
  have hc : Char.ofNat c.toNat = c := Char.ofNat_toNat c
  cases upper with
  | true =>
    by_cases hl : c.isLower = true
    · obtain ⟨h1, h2⟩ := (isLower_iff_toNat c).mp hl
      generalize c.toNat = n at hc h1 h2
      subst hc
      interval_cases n <;> decide
    · simp [hl]
  | false =>
    by_cases hu : c.isUpper = true
    · obtain ⟨h1, h2⟩ := (isUpper_iff_toNat c).mp hu
      generalize c.toNat = n at hc h1 h2
      subst hc
      interval_cases n <;> decide
    · simp [hu]

theorem lowerName_canonical (s : String) : lowerName (CanonicalMIMEHeaderKey s) = lowerName s := by
  have hmap : ∀ (upper : Bool) (l : List Char),
      (canonicalCase upper l).map
          (fun c : Char => if c.isUpper then Char.ofNat (c.toNat + 32) else c) =
        l.map (fun c : Char => if c.isUpper then Char.ofNat (c.toNat + 32) else c) := by
    intro upper l
    induction l generalizing upper with
    | nil => rfl
    | cons c cs ih =>
      simp only [canonicalCase, List.map_cons]
      rw [ih]
      exact congrArg (· :: _) (lowerChar_canonicalCase upper c)
  unfold CanonicalMIMEHeaderKey
  split
  · simp only [lowerName]
    rw [hmap]
  · rfl

theorem lowerName_append (a b : String) : lowerName (a ++ b) = lowerName a ++ lowerName b := by
  apply String.ext
  simp [lowerName, String.data_append]

theorem lowerName_baggage (k : String) (hk : lowerName k = k) :
    lowerName (CanonicalMIMEHeaderKey (CanonicalMIMEHeaderKey ("baggage-" ++ k))) =
      "baggage-" ++ k := by
  rw [lowerName_canonical, lowerName_canonical, lowerName_append, hk]
  rfl

theorem lowerName_baggage_once (k : String) (hk : lowerName k = k) :
    lowerName (CanonicalMIMEHeaderKey ("baggage-" ++ k)) = "baggage-" ++ k := by
  rw [lowerName_canonical, lowerName_append, hk]
  rfl

theorem stripLeading_append (p s : List Char) : stripLeading p (p ++ s) = some s := by
  induction p with
  | nil => rfl
  | cons a p ih => simp [stripLeading, ih]

theorem baggage_name_injective (k k' : String) (h : "baggage-" ++ k = "baggage-" ++ k') :
    k = k' := by
  have hd := congrArg String.data h
  simp only [String.data_append, List.append_cancel_left_eq] at hd
  exact String.ext hd

theorem baggage_name_not_reserved (k : String) :
    "baggage-" ++ k ≠ "trace-id" ∧ "baggage-" ++ k ≠ "span-id" ∧ "baggage-" ++ k ≠ "sampled" := by
  refine ⟨?_, ?_, ?_⟩ <;>
  · intro h
    have hd := congrArg String.data h
    simp [String.data_append] at hd

theorem foldl_Set_fresh (canon : String → String) (name : String → String)
    (kvs : List (String × String)) :
    ∀ acc : Header, (kvs.map fun kv => canon (name kv.1)).Nodup →
      (∀ kv ∈ kvs, canon (name kv.1) ∉ acc.map Prod.fst) →
      kvs.foldl (fun c kv => c.Set canon (name kv.1) kv.2) acc =
        acc ++ kvs.map fun kv => (canon (name kv.1), [kv.2]) := by
  induction kvs with
  | nil => intro acc _ _; simp
  | cons kv rest ih =>
    intro acc hnd hfresh
    simp only [List.map_cons, List.nodup_cons, List.mem_map, not_exists, not_and] at hnd
    have hset : acc.Set canon (name kv.1) kv.2 = acc ++ [(canon (name kv.1), [kv.2])] := by
      simp [Header.Set, Header.assign_absent acc _ _ (hfresh kv (List.mem_cons_self _ _))]
    simp only [List.foldl_cons, hset]
    rw [ih _ hnd.2]
    · simp
    · intro kv' hkv'
      simp only [List.map_append, List.map_cons, List.map_nil, List.mem_append,
        List.mem_singleton, not_or]
      exact ⟨hfresh kv' (List.mem_cons_of_mem _ hkv'), fun h => hnd.1 kv' hkv' h⟩

theorem copyCarrier_fresh (canon : String → String) (carrier : Header) :
    ∀ acc : Header, (∀ e ∈ carrier, e.2.length = 1) →
      (carrier.map fun e => canon e.1).Nodup →
      (∀ e ∈ carrier, canon e.1 ∉ acc.map Prod.fst) →
      copyCarrier canon carrier acc = .ok (acc ++ carrier.map fun e => (canon e.1, e.2)) := by
  induction carrier with
  | nil => intro acc _ _ _; simp [copyCarrier]
  | cons e rest ih =>
    intro acc hone hnd hfresh
    obtain ⟨key, value⟩ := e
    obtain ⟨v0, rfl⟩ := List.length_eq_one.mp (hone (key, value) (List.mem_cons_self _ _))
    simp only [List.map_cons, List.nodup_cons, List.mem_map, not_exists, not_and] at hnd
    have hkacc : canon key ∉ acc.map Prod.fst := hfresh (key, [v0]) (List.mem_cons_self _ _)
    have hadd : acc.Add canon key v0 = acc ++ [(canon key, [v0])] := by
      simp [Header.Add, Header.values_absent acc _ hkacc, Header.assign_absent acc _ _ hkacc]
    have hrest := ih (acc ++ [(canon key, [v0])])
      (fun e he => hone e (List.mem_cons_of_mem _ he)) hnd.2
      (by
        intro e he
        simp only [List.map_append, List.map_cons, List.map_nil, List.mem_append,
          List.mem_singleton, not_or]
        exact ⟨hfresh e (List.mem_cons_of_mem _ he), fun h => hnd.1 e he h⟩)
    simp [copyCarrier, hadd, hrest]

theorem baggage_names_nodup (F : String → String)
    (hF : ∀ k, lowerName k = k → lowerName (F k) = "baggage-" ++ k)
    (bag : List (String × String)) (hlow : ∀ kv ∈ bag, lowerName kv.1 = kv.1)
    (hnd : (bag.map Prod.fst).Nodup) : (bag.map fun kv => F kv.1).Nodup := by
  have hmap : (bag.map fun kv => F kv.1) = (bag.map Prod.fst).map F := by simp
  rw [hmap]
  refine List.Nodup.map_on ?_ hnd
  intro k hk k' hk' heq
  obtain ⟨kv, hkv, rfl⟩ := List.mem_map.mp hk
  obtain ⟨kv', hkv', rfl⟩ := List.mem_map.mp hk'
  have h := congrArg lowerName heq
  rw [hF _ (hlow kv hkv), hF _ (hlow kv' hkv')] at h
  exact baggage_name_injective _ _ h

theorem baggage_names_fresh (F : String → String)
    (hF : ∀ k, lowerName k = k → lowerName (F k) = "baggage-" ++ k)
    (bag : List (String × String)) (hlow : ∀ kv ∈ bag, lowerName kv.1 = kv.1) :
    ∀ kv ∈ bag, F kv.1 ∉ ["Trace-Id", "Span-Id", "Sampled"] := by
  intro kv hkv hmem
  have h := hF kv.1 (hlow kv hkv)
  obtain ⟨h1, h2, h3⟩ := baggage_name_not_reserved kv.1
  simp only [List.mem_cons, List.mem_singleton, List.not_mem_nil, or_false] at hmem
  rcases hmem with e | e | e
  · rw [e] at h; exact h1 (h.symm.trans (by decide))
  · rw [e] at h; exact h2 (h.symm.trans (by decide))
  · rw [e] at h; exact h3 (h.symm.trans (by decide))

theorem specBaggage_names (bag : List (String × String))
    (hlow : ∀ kv ∈ bag, lowerName kv.1 = kv.1) :
    specBaggage (bag.map fun kv =>
      (CanonicalMIMEHeaderKey (CanonicalMIMEHeaderKey ("baggage-" ++ kv.1)), [kv.2])) = bag := by
  induction bag with
  | nil => rfl
  | cons kv rest ih =>
    have hk := lowerName_baggage kv.1 (hlow kv (List.mem_cons_self _ _))
    have hstrip : stripLeading "baggage-".data ("baggage-" ++ kv.1).data = some kv.1.data := by
      rw [String.data_append]
      exact stripLeading_append _ _
    have ih' := ih (fun kv' h => hlow kv' (List.mem_cons_of_mem _ h))
    simp only [specBaggage] at ih' ⊢
    simp only [List.map_cons, List.filterMap_cons, hk, hstrip, ih']

theorem specInject_carrier (c : SpanContext) (hlow : ∀ kv ∈ c.baggage, lowerName kv.1 = kv.1)
    (hnd : (c.baggage.map Prod.fst).Nodup) :
    specInject CanonicalMIMEHeaderKey c [] =
      [("Trace-Id", [encodeId c.traceId]), ("Span-Id", [encodeId c.spanId]),
       ("Sampled", [encodeFlag c.sampled])] ++
      c.baggage.map fun kv => (CanonicalMIMEHeaderKey ("baggage-" ++ kv.1), [kv.2]) := by
  have hT : CanonicalMIMEHeaderKey "trace-id" = "Trace-Id" := by decide
  have hS : CanonicalMIMEHeaderKey "span-id" = "Span-Id" := by decide
  have hP : CanonicalMIMEHeaderKey "sampled" = "Sampled" := by decide
  have h3 : Header.Set CanonicalMIMEHeaderKey
      (Header.Set CanonicalMIMEHeaderKey
        (Header.Set CanonicalMIMEHeaderKey [] "trace-id" (encodeId c.traceId))
        "span-id" (encodeId c.spanId))
      "sampled" (encodeFlag c.sampled) =
      [("Trace-Id", [encodeId c.traceId]), ("Span-Id", [encodeId c.spanId]),
       ("Sampled", [encodeFlag c.sampled])] := by
    simp [Header.Set, Header.assign, hT, hS, hP]
  simp only [specInject, h3]
  exact foldl_Set_fresh CanonicalMIMEHeaderKey ("baggage-" ++ ·) c.baggage _
    (baggage_names_nodup (fun k => CanonicalMIMEHeaderKey ("baggage-" ++ k))
      lowerName_baggage_once c.baggage hlow hnd)
    (baggage_names_fresh (fun k => CanonicalMIMEHeaderKey ("baggage-" ++ k))
      lowerName_baggage_once c.baggage hlow)

theorem copyCarrier_injected (c : SpanContext) (hlow : ∀ kv ∈ c.baggage, lowerName kv.1 = kv.1)
    (hnd : (c.baggage.map Prod.fst).Nodup) :
    copyCarrier CanonicalMIMEHeaderKey (specInject CanonicalMIMEHeaderKey c []) [] =
      .ok ([("Trace-Id", [encodeId c.traceId]), ("Span-Id", [encodeId c.spanId]),
            ("Sampled", [encodeFlag c.sampled])] ++
        c.baggage.map fun kv =>
          (CanonicalMIMEHeaderKey (CanonicalMIMEHeaderKey ("baggage-" ++ kv.1)), [kv.2])) := by
  have hT : CanonicalMIMEHeaderKey "Trace-Id" = "Trace-Id" := by decide
  have hS : CanonicalMIMEHeaderKey "Span-Id" = "Span-Id" := by decide
  have hP : CanonicalMIMEHeaderKey "Sampled" = "Sampled" := by decide
  have hfresh := baggage_names_fresh
    (fun k => CanonicalMIMEHeaderKey (CanonicalMIMEHeaderKey ("baggage-" ++ k)))
    lowerName_baggage c.baggage hlow
  have hnames := baggage_names_nodup
    (fun k => CanonicalMIMEHeaderKey (CanonicalMIMEHeaderKey ("baggage-" ++ k)))
    lowerName_baggage c.baggage hlow hnd
  rw [specInject_carrier c hlow hnd]
  have hrun := copyCarrier_fresh CanonicalMIMEHeaderKey
    ([("Trace-Id", [encodeId c.traceId]), ("Span-Id", [encodeId c.spanId]),
      ("Sampled", [encodeFlag c.sampled])] ++
      c.baggage.map fun kv => (CanonicalMIMEHeaderKey ("baggage-" ++ kv.1), [kv.2])) []
    (by
      intro e he
      simp only [List.mem_append, List.mem_cons, List.mem_singleton, List.not_mem_nil,
        or_false, List.mem_map] at he
      rcases he with (rfl | rfl | rfl) | ⟨kv, _, rfl⟩ <;> rfl)
    (by
      simp only [List.map_append, List.map_cons, List.map_nil, List.map_map, hT, hS, hP]
      refine List.Nodup.append (by decide) hnames ?_
      intro x hx hx'
      obtain ⟨kv, hkv, rfl⟩ := List.mem_map.mp hx'
      exact hfresh kv hkv hx)
    (by simp)
  simpa [hT, hS, hP] using hrun

theorem specExtract_injected (c : SpanContext) (hlow : ∀ kv ∈ c.baggage, lowerName kv.1 = kv.1) :
    specExtract ([("Trace-Id", [encodeId c.traceId]), ("Span-Id", [encodeId c.spanId]),
            ("Sampled", [encodeFlag c.sampled])] ++
        c.baggage.map fun kv =>
          (CanonicalMIMEHeaderKey (CanonicalMIMEHeaderKey ("baggage-" ++ kv.1)), [kv.2])) =
      .ok { c with parentId := none } := by
  have hT : lowerName "Trace-Id" = "trace-id" := by decide
  have hS : lowerName "Span-Id" = "span-id" := by decide
  have hP : lowerName "Sampled" = "sampled" := by decide
  have hbag : specBaggage ([("Trace-Id", [encodeId c.traceId]), ("Span-Id", [encodeId c.spanId]),
            ("Sampled", [encodeFlag c.sampled])] ++
        c.baggage.map fun kv =>
          (CanonicalMIMEHeaderKey (CanonicalMIMEHeaderKey ("baggage-" ++ kv.1)), [kv.2])) =
      c.baggage := by
    have h := specBaggage_names c.baggage hlow
    have n1 : stripLeading "baggage-".data "trace-id".data = none := by decide
    have n2 : stripLeading "baggage-".data "span-id".data = none := by decide
    have n3 : stripLeading "baggage-".data "sampled".data = none := by decide
    simp only [specBaggage] at h ⊢
    simp only [List.cons_append, List.nil_append, List.filterMap_cons, hT, hS, hP, n1, n2, n3, h]
  simp only [specExtract, hbag]
  simp [firstValue, hT, hS, hP, decodeId_encodeId, decodeFlag_encodeFlag]

/-! ## The claims -/

/-- Claim C1, as the code has it: when `tracer.Extract` returns an error for the
incoming request, the `/hi` handler calls `log.Fatal` with that error, which
ends the process with status 1.  Nothing else happens: no span is started or
finished, `handle` is not called, no response body is written. -/
theorem hiHandler_extract_error_is_fatal (lib : Lib) (writer : String) (request : Request)
    (w : World) (err : ExtractError) (h : lib.extract request.header = .error err) :
    hiHandler lib writer request w =
      .exited 1 { w with events := w.events ++ [.logFatal err.message] } :=
  hiHandler_error lib writer request w err h

/-- Witness for C1 (amended): a request without trace headers, for which the
codec reports `Missing`. -/
theorem hiHandler_extract_error_is_fatal_witness :
    specLib.extract (NewRequest "GET" "http://localhost:8999/hi").header = .error .missing ∧
    hiHandler specLib "" (NewRequest "GET" "http://localhost:8999/hi") World.initial =
      .exited 1 { World.initial with
        events := World.initial.events ++ [.logFatal ExtractError.missing.message] } :=
  ⟨rfl, hiHandler_extract_error_is_fatal specLib "" (NewRequest "GET" "http://localhost:8999/hi")
    World.initial .missing rfl⟩

/-- Counterexample to C1 as stated: for a request that carries no trace headers
`Extract` fails, and the handler terminates the process instead of answering:
it does not return, and the only thing it does is the `log.Fatal` output, so no
span is started and `hello world` is not written. -/
theorem hiHandler_terminates_process_without_headers :
    specLib.extract ([] : Header) = .error .missing ∧
    hiHandler specLib "" { method := "GET", url := "/hi", header := [] } World.initial =
      .exited 1 { events := [.logFatal "opentracing: SpanContext not found in Extract carrier"], nextId := 1,
                  globalTracer := none } ∧
    (¬ ∃ body w', hiHandler specLib "" { method := "GET", url := "/hi", header := [] }
        World.initial = .returned body w') ∧
    spanStarts (hiHandler specLib "" { method := "GET", url := "/hi", header := [] }
        World.initial).world.events = [] ∧
    Event.write "hello world" ∉ (hiHandler specLib "" { method := "GET", url := "/hi", header := [] }
        World.initial).world.events := by
  refine ⟨rfl, by decide, ?_, by decide, by decide⟩
  rintro ⟨body, w', h⟩
  have h' : hiHandler specLib "" { method := "GET", url := "/hi", header := [] } World.initial =
      .exited 1 { events := [.logFatal "opentracing: SpanContext not found in Extract carrier"], nextId := 1,
                  globalTracer := none } := by decide
  rw [h'] at h
  cases h

/-- Claim C2 at the failing input: when `tracer.Inject` returns an error,
`client` panics after having started the span `http-one-req` (span id 3 here),
and the deferred calls that run are only those of `cross-span` and the closer:
`Finish` is never called on `http-one-req`. -/
theorem client_inject_error_leaves_span_unfinished :
    client injectErrorLib doFails World.initial =
      .panicked "opentracing: Unknown or unsupported Inject/Extract format"
        { events :=
            [.setGlobalTracer (jaegerTracer "myapp" (.udp "127.0.0.1:6831" 0)),
             .spanStart "cross-span"
                { traceId := 1, spanId := 2, parentId := none, sampled := true, baggage := [] },
             .spanStart "http-one-req"
                { traceId := 1, spanId := 3, parentId := some 2, sampled := true, baggage := [] },
             .spanFinish "cross-span" 2,
             .closerClose "myapp"],
          nextId := 4,
          globalTracer := some (jaegerTracer "myapp" (.udp "127.0.0.1:6831" 0)) } ∧
    finishCount 3 (client injectErrorLib doFails World.initial).world.events = 0 ∧
    finishCount 2 (client injectErrorLib doFails World.initial).world.events = 1 := by
  refine ⟨by decide, by decide, by decide⟩

/-- Claim C3: in the remote scenario, when `Inject` and `Extract` succeed and
`Extract` gives back the trace id and span id that were injected, the span
`server-two-http-root` has the trace id of `http-one-req` and the span id of
`http-one-req` as parent (not that of `cross-span`), and `server-handle` is a
child of `server-two-http-root` in the same trace. -/
theorem server_span_is_child_of_client_span (lib : Lib) (w : World) (sender : Sender)
    (car hdr : Header) (wire : SpanContext)
    (hudp : lib.NewUDPTransport "127.0.0.1:6831" 0 = .ok sender)
    (hinj : lib.inject (clientCtx w) [] = .ok car)
    (hcopy : copyCarrier lib.canon car [] = .ok hdr)
    (hext : lib.extract hdr = .ok wire)
    (hids : wire.traceId = (clientCtx w).traceId ∧ wire.spanId = (clientCtx w).spanId) :
    ∃ (server handler : SpanContext) (new : List Event) (w' : World),
      simulateRemoteCall lib w = .returned () w' ∧
      w'.events = w.events ++ new ∧
      spanStarts new =
        [("cross-span", firstRootCtx w), ("http-one-req", clientCtx w),
         ("server-two-http-root", server), ("server-handle", handler)] ∧
      server.traceId = (clientCtx w).traceId ∧
      server.parentId = some (clientCtx w).spanId ∧
      server.parentId ≠ some (firstRootCtx w).spanId ∧
      handler.traceId = server.traceId ∧
      handler.parentId = some server.spanId := by
  refine ⟨{ wire with spanId := w.nextId + 3, parentId := some wire.spanId },
    { wire with spanId := w.nextId + 4, parentId := some (w.nextId + 3) }, _, _,
    simulateRemoteCall_run lib w sender car hdr wire hudp hinj hcopy hext, rfl, ?_, ?_, ?_, ?_, ?_, ?_⟩
  · simp
  · exact hids.1
  · simp [hids.2]
  · simp [hids.2, clientCtx, firstRootCtx]
  · rfl
  · rfl

/-- Witness for C3: the remote scenario from the initial process state, with
the codec of the specification. -/
theorem server_span_is_child_of_client_span_witness :
    ∃ (server handler : SpanContext) (new : List Event) (w' : World),
      simulateRemoteCall specLib World.initial = .returned () w' ∧
      w'.events = World.initial.events ++ new ∧
      spanStarts new =
        [("cross-span", firstRootCtx World.initial), ("http-one-req", clientCtx World.initial),
         ("server-two-http-root", server), ("server-handle", handler)] ∧
      server.traceId = (clientCtx World.initial).traceId ∧
      server.parentId = some (clientCtx World.initial).spanId ∧
      server.parentId ≠ some (firstRootCtx World.initial).spanId ∧
      handler.traceId = server.traceId ∧
      handler.parentId = some server.spanId :=
  server_span_is_child_of_client_span specLib World.initial (.udp "127.0.0.1:6831" 0)
    [("Trace-Id", ["1"]), ("Span-Id", ["3"]), ("Sampled", ["true"])]
    [("Trace-Id", ["1"]), ("Span-Id", ["3"]), ("Sampled", ["true"])]
    { traceId := 1, spanId := 3, parentId := none, sampled := true, baggage := [] }
    rfl rfl rfl rfl ⟨rfl, rfl⟩

/-- Claim C4, as the code has it, for the codec of the specification: for a
context with non-empty baggage whose keys are pairwise distinct and hold no
upper-case letter, injecting it into an empty `HTTPHeadersCarrier`, copying the
carrier into the request headers with the loop of `client`, and extracting from
those headers succeeds and gives a context with the same trace id, span id,
sampling flag and baggage; its span id is the parent id of a child made from
it. -/
theorem roundtrip_across_http_boundary_lower_case_keys (c : SpanContext)
    (_hbag : c.baggage ≠ [])
    (hkeys : (c.baggage.map Prod.fst).Nodup)
    (hlow : ∀ kv ∈ c.baggage, lowerName kv.1 = kv.1) :
    ∃ hdr c',
      (specLib.inject c []).bind (fun carrier =>
        copyCarrier specLib.canon carrier
          (NewRequest "GET" "http://localhost:8999/hi").header) = .ok hdr ∧
      specLib.extract hdr = .ok c' ∧
      c'.traceId = c.traceId ∧ c'.spanId = c.spanId ∧ c'.sampled = c.sampled ∧
      c'.baggage = c.baggage ∧
      ∀ w, (NewChild c' w).1.parentId = some c.spanId := by
  exact ⟨[("Trace-Id", [encodeId c.traceId]), ("Span-Id", [encodeId c.spanId]),
      ("Sampled", [encodeFlag c.sampled])] ++
      c.baggage.map (fun kv =>
        (CanonicalMIMEHeaderKey (CanonicalMIMEHeaderKey ("baggage-" ++ kv.1)), [kv.2])),
    { c with parentId := none }, copyCarrier_injected c hlow hkeys,
    specExtract_injected c hlow, rfl, rfl, rfl, rfl, fun _ => rfl⟩

/-- Witness for C4 (amended): the context of the specification's round-trip
property, with baggage `a = 1`, `b = 2`. -/
theorem roundtrip_across_http_boundary_lower_case_keys_witness :
    sampleCtx.baggage ≠ [] ∧ (sampleCtx.baggage.map Prod.fst).Nodup ∧
    (∀ kv ∈ sampleCtx.baggage, lowerName kv.1 = kv.1) ∧
    ∃ hdr c',
      (specLib.inject sampleCtx []).bind (fun carrier =>
        copyCarrier specLib.canon carrier
          (NewRequest "GET" "http://localhost:8999/hi").header) = .ok hdr ∧
      specLib.extract hdr = .ok c' ∧
      c'.traceId = sampleCtx.traceId ∧ c'.spanId = sampleCtx.spanId ∧
      c'.sampled = sampleCtx.sampled ∧ c'.baggage = sampleCtx.baggage ∧
      ∀ w, (NewChild c' w).1.parentId = some sampleCtx.spanId :=
  ⟨by decide, by decide, by decide,
    roundtrip_across_http_boundary_lower_case_keys sampleCtx (by decide) (by decide) (by decide)⟩

/-- Counterexample to C4 as stated: the baggage key `A` goes out under the
header `Baggage-A` and comes back as `a`, so the extracted baggage is not that
of the context; and of the two keys `k` and `K` only one header `Baggage-K`
goes out, so one entry comes back where two were sent. -/
theorem roundtrip_loses_baggage_key_case :
    upperCaseCtx.baggage ≠ [] ∧
    (specLib.inject upperCaseCtx []).bind (fun carrier =>
      copyCarrier specLib.canon carrier (NewRequest "GET" "http://localhost:8999/hi").header) =
      .ok [("Trace-Id", ["12"]), ("Span-Id", ["305"]), ("Sampled", ["true"]),
           ("Baggage-A", ["1"])] ∧
    specLib.extract [("Trace-Id", ["12"]), ("Span-Id", ["305"]), ("Sampled", ["true"]),
                     ("Baggage-A", ["1"])] =
      .ok { upperCaseCtx with parentId := none, baggage := [("a", "1")] } ∧
    ¬ [("a", "1")].Perm upperCaseCtx.baggage ∧
    (specLib.inject mixedCaseCtx []).bind (fun carrier =>
      copyCarrier specLib.canon carrier (NewRequest "GET" "http://localhost:8999/hi").header) =
      .ok [("Trace-Id", ["12"]), ("Span-Id", ["305"]), ("Sampled", ["true"]),
           ("Baggage-K", ["2"])] ∧
    specLib.extract [("Trace-Id", ["12"]), ("Span-Id", ["305"]), ("Sampled", ["true"]),
                     ("Baggage-K", ["2"])] =
      .ok { mixedCaseCtx with parentId := none, baggage := [("k", "2")] } ∧
    ¬ [("k", "2")].Perm mixedCaseCtx.baggage := by
  refine ⟨by decide, rfl, rfl, by decide, rfl, rfl, by decide⟩

/-- Claim C5: in `simulateLocalCall` four spans are started, `root-span`,
`step-1`, `step-2`, `step-3`; the root span has no parent, and each step span
has the root span's id as parent id (which is the id of no step span), the root
span's trace id and the root span's sampling flag. -/
theorem local_steps_are_siblings (lib : Lib) (w : World) (sender : Sender)
    (hudp : lib.NewUDPTransport "127.0.0.1:6831" 0 = .ok sender) :
    ∃ (root s1 s2 s3 : SpanContext) (new : List Event) (w' : World),
      simulateLocalCall lib w = .returned () w' ∧
      w'.events = w.events ++ new ∧
      spanStarts new =
        [("root-span", root), ("step-1", s1), ("step-2", s2), ("step-3", s3)] ∧
      root.parentId = none ∧
      ∀ s ∈ [s1, s2, s3],
        s.parentId = some root.spanId ∧ s.traceId = root.traceId ∧ s.sampled = root.sampled ∧
        ∀ s' ∈ [s1, s2, s3], s.parentId ≠ some s'.spanId := by
  refine ⟨firstRootCtx w,
    { firstRootCtx w with spanId := w.nextId + 2, parentId := some (w.nextId + 1) },
    { firstRootCtx w with spanId := w.nextId + 3, parentId := some (w.nextId + 1) },
    { firstRootCtx w with spanId := w.nextId + 4, parentId := some (w.nextId + 1) },
    _, _, simulateLocalCall_run lib w sender hudp, rfl, ?_, rfl, ?_⟩
  · simp
  · simp [firstRootCtx]

/-- Witness for C5: the local scenario from the initial process state. -/
theorem local_steps_are_siblings_witness :
    ∃ (root s1 s2 s3 : SpanContext) (new : List Event) (w' : World),
      simulateLocalCall specLib World.initial = .returned () w' ∧
      w'.events = World.initial.events ++ new ∧
      spanStarts new =
        [("root-span", root), ("step-1", s1), ("step-2", s2), ("step-3", s3)] ∧
      root.parentId = none ∧
      ∀ s ∈ [s1, s2, s3],
        s.parentId = some root.spanId ∧ s.traceId = root.traceId ∧ s.sampled = root.sampled ∧
        ∀ s' ∈ [s1, s2, s3], s.parentId ≠ some s'.spanId :=
  local_steps_are_siblings specLib World.initial (.udp "127.0.0.1:6831" 0) rfl

/-- Claim C6: `NewJaegerTracer(service)` panics exactly when creating the UDP
transport to `127.0.0.1:6831` returns an error, and then with that error;
otherwise it returns, for every service name, the tracer and closer built for
that name from a constant sampler set to true and a remote reporter over the
transport.  In both cases it does nothing else. -/
theorem NewJaegerTracer_panics_iff_transport_fails (lib : Lib) (service : String) (w : World) :
    ((∃ v w', NewJaegerTracer lib service w = .panicked v w') ↔
        ∃ err, lib.NewUDPTransport "127.0.0.1:6831" 0 = .error err) ∧
    (∀ err, lib.NewUDPTransport "127.0.0.1:6831" 0 = .error err →
        NewJaegerTracer lib service w = .panicked err w) ∧
    (∀ sender, lib.NewUDPTransport "127.0.0.1:6831" 0 = .ok sender →
        NewJaegerTracer lib service w =
          .returned
            ({ service := service, sampler := .const true, reporter := .remote sender },
             { tracer := { service := service, sampler := .const true,
                           reporter := .remote sender } })
            w) := by
  refine ⟨⟨?_, ?_⟩, ?_, ?_⟩
  · rintro ⟨v, w', hp⟩
    cases hu : lib.NewUDPTransport "127.0.0.1:6831" 0 with
    | error err => exact ⟨err, rfl⟩
    | ok sender => rw [NewJaegerTracer_ok lib service w sender hu] at hp; cases hp
  · rintro ⟨err, hu⟩
    exact ⟨err, w, NewJaegerTracer_error lib service w err hu⟩
  · intro err hu
    exact NewJaegerTracer_error lib service w err hu
  · intro sender hu
    simpa using NewJaegerTracer_ok lib service w sender hu

/-- Claim C7: for a carrier in which every key has a non-empty value list and
the keys have pairwise distinct canonical forms, and for any request header map
`h`, the copy loop of `client` does not index out of range; afterwards the
values under the canonical form of each carrier key are those `h` had followed
by the first carrier value of that key, and the values under every other header
name are those `h` had. -/
theorem copy_loop_adds_first_values (canon : String → String) (carrier h : Header)
    (hne : ∀ e ∈ carrier, e.2 ≠ [])
    (hdistinct : (carrier.map fun e => canon e.1).Nodup) :
    ∃ h', copyCarrier canon carrier h = .ok h' ∧
      (∀ e (he : e ∈ carrier),
        h'.values (canon e.1) = h.values (canon e.1) ++ [e.2.head (hne e he)]) ∧
      (∀ k, (∀ e ∈ carrier, canon e.1 ≠ k) → h'.values k = h.values k) := by
  obtain ⟨h', hrun, hkeys, hframe⟩ := copyCarrier_spec canon carrier h hne hdistinct
  exact ⟨h', hrun, fun e he => hkeys e he (hne e he), hframe⟩

/-- Witness for C7: a carrier with two lower-case keys copied into a header map
that already holds an unrelated header and one value under `Trace-Id`. -/
theorem copy_loop_adds_first_values_witness :
    ∃ h', copyCarrier CanonicalMIMEHeaderKey
        [("trace-id", ["12", "99"]), ("span-id", ["305"])]
        [("Accept", ["text/plain"]), ("Trace-Id", ["7"])] = .ok h' ∧
      h'.values "Trace-Id" = ["7", "12"] ∧ h'.values "Span-Id" = ["305"] ∧
      h'.values "Accept" = ["text/plain"] := by
  obtain ⟨h', hrun, hkeys, hframe⟩ := copy_loop_adds_first_values CanonicalMIMEHeaderKey
    [("trace-id", ["12", "99"]), ("span-id", ["305"])]
    [("Accept", ["text/plain"]), ("Trace-Id", ["7"])] (by decide) (by decide)
  refine ⟨h', hrun, ?_, ?_, ?_⟩
  · exact hkeys ("trace-id", ["12", "99"]) (by decide)
  · exact hkeys ("span-id", ["305"]) (by decide)
  · exact hframe "Accept" (by decide)

/-- Claim C8: deferred calls run last-in-first-out.  In `simulateLocalCall` the
closing events are, in order, the finish of `step-1`, `step-2`, `step-3`, of
`root-span`, and `closer.Close`.  In `client`, when `client.Do` has returned a
response, the function prints the body and then ends with `resp.Body.Close`,
the finish of `http-one-req`, the finish of `cross-span`, and `closer.Close`. -/
theorem deferred_calls_run_last_in_first_out (lib : Lib) (Do : Request → World → DoResult)
    (w : World) (sender : Sender) (car hdr : Header) (r : Response) (w2 : World)
    (hudp : lib.NewUDPTransport "127.0.0.1:6831" 0 = .ok sender)
    (hinj : lib.inject (clientCtx w) [] = .ok car)
    (hcopy : copyCarrier lib.canon car [] = .ok hdr)
    (hdo : Do (clientRequest hdr) (clientWorldAtDo sender w) = .response (some r) w2) :
    (∃ (new : List Event) (w' : World),
      simulateLocalCall lib w = .returned () w' ∧ w'.events = w.events ++ new ∧
      closings new =
        [.spanFinish "step-1" (w.nextId + 2), .spanFinish "step-2" (w.nextId + 3),
         .spanFinish "step-3" (w.nextId + 4), .spanFinish "root-span" (w.nextId + 1),
         .closerClose "myapp"]) ∧
    (∃ w' : World,
      client lib Do w = .returned () w' ∧
      w'.events = w2.events ++
        [.println ("body: " ++ r.body), .bodyClose,
         .spanFinish "http-one-req" (w.nextId + 2), .spanFinish "cross-span" (w.nextId + 1),
         .closerClose "myapp"]) := by
  refine ⟨⟨_, _, simulateLocalCall_run lib w sender hudp, rfl, by simp⟩, ?_⟩
  have hrun := client_run lib Do w sender car hdr hudp hinj hcopy
  rw [hdo] at hrun
  exact ⟨_, hrun, rfl⟩

/-- Witness for C8: both scenarios from the initial process state; the client
runs against the `/hi` handler. -/
theorem deferred_calls_run_last_in_first_out_witness :
    (∃ (new : List Event) (w' : World),
      simulateLocalCall specLib World.initial = .returned () w' ∧
      w'.events = World.initial.events ++ new ∧
      closings new =
        [.spanFinish "step-1" (World.initial.nextId + 2),
         .spanFinish "step-2" (World.initial.nextId + 3),
         .spanFinish "step-3" (World.initial.nextId + 4),
         .spanFinish "root-span" (World.initial.nextId + 1),
         .closerClose "myapp"]) ∧
    (∃ w' : World,
      client specLib (serveHi specLib) World.initial = .returned () w' ∧
      w'.events =
        (hiHandler specLib "" (clientRequest [("Trace-Id", ["1"]), ("Span-Id", ["3"]),
          ("Sampled", ["true"])])
          (clientWorldAtDo (.udp "127.0.0.1:6831" 0) World.initial)).world.events ++
        [.println ("body: " ++ (Response.mk "hello world").body), .bodyClose,
         .spanFinish "http-one-req" (World.initial.nextId + 2),
         .spanFinish "cross-span" (World.initial.nextId + 1),
         .closerClose "myapp"]) :=
  deferred_calls_run_last_in_first_out specLib (serveHi specLib) World.initial
    (.udp "127.0.0.1:6831" 0)
    [("Trace-Id", ["1"]), ("Span-Id", ["3"]), ("Sampled", ["true"])]
    [("Trace-Id", ["1"]), ("Span-Id", ["3"]), ("Sampled", ["true"])]
    { body := "hello world" }
    (hiHandler specLib "" (clientRequest [("Trace-Id", ["1"]), ("Span-Id", ["3"]),
      ("Sampled", ["true"])])
      (clientWorldAtDo (.udp "127.0.0.1:6831" 0) World.initial)).world
    rfl rfl rfl rfl

/-- Claim C9: when `client.Do` returns a nil response, `client` panics with a
nil dereference at `defer resp.Body.Close()`; what it had done before the call
is registering the tracer and starting its two spans, what it does after it is
running the deferred calls registered so far, in the order finish of
`http-one-req`, finish of `cross-span`, `closer.Close`; no line is printed. -/
theorem client_do_failure_panics (lib : Lib) (Do : Request → World → DoResult)
    (w : World) (sender : Sender) (car hdr : Header) (w2 : World)
    (hudp : lib.NewUDPTransport "127.0.0.1:6831" 0 = .ok sender)
    (hinj : lib.inject (clientCtx w) [] = .ok car)
    (hcopy : copyCarrier lib.canon car [] = .ok hdr)
    (hdo : Do (clientRequest hdr) (clientWorldAtDo sender w) = .response none w2) :
    ∃ (before after : List Event) (w' : World),
      (clientWorldAtDo sender w).events = w.events ++ before ∧
      client lib Do w =
        .panicked "runtime error: invalid memory address or nil pointer dereference" w' ∧
      w'.events = w2.events ++ after ∧
      after =
        [.spanFinish "http-one-req" (w.nextId + 2), .spanFinish "cross-span" (w.nextId + 1),
         .closerClose "myapp"] ∧
      ∀ line, Event.println line ∉ before ++ after := by
  have hrun := client_run lib Do w sender car hdr hudp hinj hcopy
  rw [hdo] at hrun
  exact ⟨_, _, _, rfl, hrun, rfl, rfl, by simp⟩

/-- Witness for C9: the client from the initial process state, with a
`client.Do` that fails. -/
theorem client_do_failure_panics_witness :
    ∃ (before after : List Event) (w' : World),
      (clientWorldAtDo (.udp "127.0.0.1:6831" 0) World.initial).events =
        World.initial.events ++ before ∧
      client specLib doFails World.initial =
        .panicked "runtime error: invalid memory address or nil pointer dereference" w' ∧
      w'.events = (clientWorldAtDo (.udp "127.0.0.1:6831" 0) World.initial).events ++ after ∧
      after =
        [.spanFinish "http-one-req" (World.initial.nextId + 2),
         .spanFinish "cross-span" (World.initial.nextId + 1),
         .closerClose "myapp"] ∧
      ∀ line, Event.println line ∉ before ++ after :=
  client_do_failure_panics specLib doFails World.initial (.udp "127.0.0.1:6831" 0)
    [("Trace-Id", ["1"]), ("Span-Id", ["3"]), ("Sampled", ["true"])]
    [("Trace-Id", ["1"]), ("Span-Id", ["3"]), ("Sampled", ["true"])]
    (clientWorldAtDo (.udp "127.0.0.1:6831" 0) World.initial)
    rfl rfl rfl rfl

/-- Claim C10: `step1`, `step2`, `step3` and `handle` each return after exactly
these calls, in this order: the steps start their span, sleep 1 s, 2 s and 3 s,
set the tag `func` to their own name on that span and finish it; `handle`
starts its span, sets the tag `func` to `handle` and the baggage items `params`
and `err` on it, sleeps 5 s and finishes it. -/
theorem tag_and_sleep_before_finish (ctx : Context) (w : World) :
    (∃ c w', step1 ctx w = .returned () w' ∧ w'.events = w.events ++
      [.spanStart "step-1" c, .sleep 1000, .setTag c.spanId "func" "step1",
       .spanFinish "step-1" c.spanId]) ∧
    (∃ c w', step2 ctx w = .returned () w' ∧ w'.events = w.events ++
      [.spanStart "step-2" c, .sleep 2000, .setTag c.spanId "func" "step2",
       .spanFinish "step-2" c.spanId]) ∧
    (∃ c w', step3 ctx w = .returned () w' ∧ w'.events = w.events ++
      [.spanStart "step-3" c, .sleep 3000, .setTag c.spanId "func" "step3",
       .spanFinish "step-3" c.spanId]) ∧
    (∃ c w', handle ctx w = .returned () w' ∧ w'.events = w.events ++
      [.spanStart "server-handle" c, .setTag c.spanId "func" "handle",
       .setBaggage c.spanId "params" "a very long string",
       .setBaggage c.spanId "err" "a error with detail information",
       .sleep 5000, .spanFinish "server-handle" c.spanId]) := by
  cases ctx with
  | none =>
    refine ⟨⟨(NewRoot (w.globalTracer.getD noopTracer).sampled w).1, ?_⟩,
      ⟨(NewRoot (w.globalTracer.getD noopTracer).sampled w).1, ?_⟩,
      ⟨(NewRoot (w.globalTracer.getD noopTracer).sampled w).1, ?_⟩,
      ⟨(NewRoot (w.globalTracer.getD noopTracer).sampled w).1, ?_⟩⟩ <;>
    simp [step1, step2, step3, handle, Body.bind]
  | some p =>
    refine ⟨⟨(NewChild p.ctx w).1, ?_⟩, ⟨(NewChild p.ctx w).1, ?_⟩,
      ⟨(NewChild p.ctx w).1, ?_⟩, ⟨(NewChild p.ctx w).1, ?_⟩⟩ <;>
    simp [step1, step2, step3, handle, Body.bind]

end JaegerTest
